import Mathlib

/-
Verification development for the clothing-generation front end.

The definitions below are a shallow embedding of the orchestration core in
`services/geminiService.ts` (source file `part_004`): the prompt builder, the
retry wrapper, the operation-polling loop, the video dispatcher
`generateFashionVideo` and the image dispatcher `generateFashionImage`.
Remote-service behaviour (creation calls, status refreshes, media fetches) is
modelled as an explicit environment: a function from invocation index to the
outcome of that invocation, and a list of successive poll-refresh outcomes.
-/

set_option autoImplicit false
set_option maxRecDepth 100000

deriving instance DecidableEq for Except

namespace ClothingGen

/-- Does the character list start with the pattern `p`? Model of a JavaScript
string match anchored at the front. -/
def strStartsAt : List Char → List Char → Bool
  | [], _ => true
  | _ :: _, [] => false
  | p :: ps, c :: cs => p == c && strStartsAt ps cs

/-- Does the character list contain the pattern `pat` as a contiguous run?  -/
def hasSubstr (pat : List Char) : List Char → Bool
  | [] => strStartsAt pat []
  | c :: cs => strStartsAt pat (c :: cs) || hasSubstr pat cs

/-- Model of JavaScript `String.prototype.includes`: `msgContains s pat` is
true when `pat` occurs as a substring of `s`. -/
def msgContains (s pat : String) : Bool :=
  hasSubstr pat.data s.data

/-- Model of a thrown JavaScript error value: a message plus the optional
numeric `status` field inspected by the retry wrapper. -/
structure JsError where
  message : String
  status : Option Nat
  deriving DecidableEq, Repr

/-- Transient-error classification used by `retryOperation`
(part_004 lines 46-56): overload / rate-limit / server-fault markers in the
message, or a 429/503/500 status field. -/
def isRetryable (e : JsError) : Bool :=
  msgContains e.message "overloaded" ||
  msgContains e.message "internal server issue" ||
  msgContains e.message "429" ||
  msgContains e.message "503" ||
  msgContains e.message "500" ||
  e.status == some 429 ||
  e.status == some 503 ||
  e.status == some 500

/-- The error thrown after the retry loop exits without returning
(part_004 line 68); reachable only when `retries = 0`. -/
def failedAfterMaxRetries : JsError :=
  ⟨"Failed after max retries", none⟩

/-- Loop body of `retryOperation` (part_004 lines 37-69).  `fn j` is the
outcome of the `j`-th invocation of the wrapped operation; `i` is the current
loop index and `fuel` the remaining iterations (the wrapper is entered with
`fuel = retries`, which bounds the loop).  Returns the final outcome, the
number of invocations of `fn`, and the list of backoff delays slept. -/
def retryAux {α : Type} (fn : Nat → Except JsError α) (retries baseDelay : Nat) :
    Nat → Nat → Except JsError α × Nat × List Nat
  | 0, _ => (.error failedAfterMaxRetries, 0, [])
  | fuel + 1, i =>
    if i < retries then
      match fn i with
      | .ok v => (.ok v, 1, [])
      | .error e =>
        if !isRetryable e || i == retries - 1 then
          (.error e, 1, [])
        else
          let r := retryAux fn retries baseDelay fuel (i + 1)
          (r.1, r.2.1 + 1, baseDelay * 2 ^ i :: r.2.2)
    else
      (.error failedAfterMaxRetries, 0, [])

/-- Model of `retryOperation` (part_004 lines 37-69): run the wrapped
operation up to `retries` times with exponential backoff on transient errors.
Returns (outcome, invocation count, backoff delays slept). -/
def retryOperation {α : Type} (fn : Nat → Except JsError α) (retries baseDelay : Nat) :
    Except JsError α × Nat × List Nat :=
  retryAux fn retries baseDelay retries 0

/-- Error payload carried by a finished Operation (`operation.error`). -/
structure OpError where
  message : String
  deriving DecidableEq, Repr

/-- Model of the remote long-running video Operation: completion flag, the
optional error payload, and the optional result
(`response?.generatedVideos?.[0]?.video?.uri`, flattened to its URI). -/
structure Operation where
  done : Bool
  error : Option OpError
  response : Option String
  deriving DecidableEq, Repr

/-- Transient-error test of the polling loop (part_004 line 196).  Note that,
unlike `isRetryable`, it checks neither the `"429"` message marker nor the
numeric `status` field. -/
def isPollTransient (e : JsError) : Bool :=
  msgContains e.message "overloaded" ||
  msgContains e.message "internal server issue" ||
  msgContains e.message "500" ||
  msgContains e.message "503"

/-- Polling loop of `generateFashionVideo` (part_004 lines 189-202).  `resps`
lists the outcomes of the successive `getVideosOperation` refresh calls.
Returns `some (.ok op)` when the loop exits with a done operation,
`some (.error e)` when a refresh fails non-transiently, and `none` when the
modelled refresh outcomes are exhausted while still polling (the real loop
would keep polling forever). -/
def pollLoop : Operation → List (Except JsError Operation) → Option (Except JsError Operation)
  | op, resps =>
    if op.done then some (.ok op)
    else
      match resps with
      | [] => none
      | .ok op2 :: rest => pollLoop op2 rest
      | .error e :: rest =>
        if isPollTransient e then pollLoop op rest else some (.error e)

/-- One poll-refresh outcome that the spec's tolerant-polling scenario allows
before the terminal response: a transient refresh failure (in the polling
loop's own classification) or a refreshed, not-yet-done operation. -/
def pollRespOk : Except JsError Operation → Bool
  | .error e => isPollTransient e
  | .ok op => !op.done

/-- The TypeScript union `Gender = 'female' | 'male'`. -/
inductive Gender where
  | female
  | male
  deriving DecidableEq, Repr

/-- The string value of a `Gender`, as interpolated into prompts. -/
def Gender.str : Gender → String
  | .female => "female"
  | .male => "male"

/-- The TypeScript union `VideoAspectRatio = '9:16' | '16:9'`. -/
inductive VideoAspectRatio where
  | r916
  | r169
  deriving DecidableEq, Repr

/-- The string value of a `VideoAspectRatio`, as sent to the service. -/
def VideoAspectRatio.str : VideoAspectRatio → String
  | .r916 => "9:16"
  | .r169 => "16:9"

/-- The TypeScript union `GenerationMode = 'video' | 'image'`. -/
inductive GenerationMode where
  | video
  | image
  deriving DecidableEq, Repr

/-- The `GenerationConfig` record of `types.ts`.  `modelId`, `bodyType`,
`cameraAngle`, `style` and `materialDesc` are kept as strings, as at the
JavaScript runtime; the prompt builder looks the first two up in fixed tables
with a fallback. -/
structure GenerationConfig where
  mode : GenerationMode
  prompt : String
  gender : Gender
  modelId : String
  bodyType : String
  cameraAngle : String
  style : String
  aspectRatio : VideoAspectRatio
  materialDesc : String
  deriving DecidableEq, Repr

/-- Model of an uploaded `File`: its base64-encoded content together with its
declared MIME type. -/
structure FileB where
  base64Data : String
  type : String
  deriving DecidableEq, Repr

/-- The `UploadedAssets` record: one optional file per clothing slot. -/
structure UploadedAssets where
  top : Option FileB
  bottom : Option FileB
  shoes : Option FileB
  accessories : Option FileB
  deriving DecidableEq, Repr

/-- Model of `blobToBase64` (part_004 lines 19-31): the file's base64 payload
with the data-URL prefix already stripped. -/
def blobToBase64 (f : FileB) : String :=
  f.base64Data

/-- The `MODEL_DESCRIPTIONS` table (part_004 lines 72-79). -/
def MODEL_DESCRIPTIONS : List (String × String) :=
  [("sofia", "a Caucasian female model with blonde hair"),
   ("li", "an East Asian female model with black straight hair"),
   ("zara", "a Black female model with curly hair"),
   ("david", "a Caucasian male model with short brown hair"),
   ("ken", "an Asian male model with stylish short hair"),
   ("marcus", "a Black male model with athletic build")]

/-- The `BODY_TYPE_PROMPTS` table (part_004 lines 82-89). -/
def BODY_TYPE_PROMPTS : List (String × String) :=
  [("slim", "slender and thin"),
   ("athletic", "muscular and athletic"),
   ("curvy", "curvy and voluptuous"),
   ("plus", "plus-size and full-figured"),
   ("tall", "very tall and statuesque"),
   ("petite", "petite and short")]

/-- Model of `buildCommonPrompt` (part_004 lines 91-115): the common prompt
text, assembled left to right exactly as the source concatenates it. -/
def buildCommonPrompt (config : GenerationConfig) (assetCount : Nat) : String :=
  let baseModelDesc :=
    (MODEL_DESCRIPTIONS.lookup config.modelId).getD ("a " ++ config.gender.str ++ " model")
  let bodyAdjective := (BODY_TYPE_PROMPTS.lookup config.bodyType).getD "slender"
  let fullModelDesc := baseModelDesc ++ " with a " ++ bodyAdjective ++ " body type"
  let basePrompt := "Fashion content. " ++ fullModelDesc ++ " in a " ++ config.style ++ " setting. "
  let materialInstruction :=
    if config.materialDesc = "" then
      "Preserve the exact fabric texture, material weight, and reflectivity of the original clothing. "
    else
      "The clothing is made of " ++ config.materialDesc ++
        ". Accurately render the physical properties, weight, and texture of this material. "
  let outfitSentence :=
    if assetCount > 1 then
      "The model is wearing the complete outfit composed of the provided clothing items (Top, Bottom, Shoes, and/or Accessories). "
    else
      "The model is wearing the exact outfit shown in the input image. "
  basePrompt ++ (outfitSentence ++ materialInstruction) ++
    ("Camera Angle: " ++ config.cameraAngle ++
      ". \n  CRITICAL: Maintain high fidelity to the original clothing's texture and patterns. \n  Lighting should highlight the fabric details. High resolution, photorealistic, highly detailed texture.")

/-- The ordered asset list built by both dispatchers (part_004 lines 128 and
237): the populated slots in the canonical priority order
[top, bottom, shoes, accessories]. -/
def orderedFiles (assets : UploadedAssets) : List FileB :=
  [assets.top, assets.bottom, assets.shoes, assets.accessories].filterMap id

/-- `"API Key not found."` (part_004 lines 123 and 233). -/
def apiKeyNotFoundError : JsError :=
  ⟨"API Key not found.", none⟩

/-- `"Please upload at least one image."` (part_004 lines 130 and 238). -/
def noAssetsError : JsError :=
  ⟨"Please upload at least one image.", none⟩

/-- The distinguished credential-expiry error thrown by the video dispatcher
(part_004 line 221). -/
def authExpiredError : JsError :=
  ⟨"API Key session expired or invalid. Please re-select your key.", none⟩

/-- The catch-block normalization of `generateFashionVideo`
(part_004 lines 218-224): errors whose message signals an expired or invalid
credential become the distinguished auth error; everything else is rethrown
unchanged. -/
def normalizeAuthError (e : JsError) : JsError :=
  if msgContains e.message "Requested entity was not found" || msgContains e.message "404" then
    authExpiredError
  else
    e

/-- The single-reference video creation request (part_004 lines 143-155). -/
structure SingleVideoCall where
  model : String
  prompt : String
  imageBytes : String
  imageMime : String
  numberOfVideos : Nat
  resolution : String
  aspectRatio : String
  deriving DecidableEq, Repr

/-- One entry of the multi-reference payload (part_004 lines 165-171). -/
structure ReferenceImagePayload where
  imageBytes : String
  imageMime : String
  deriving DecidableEq, Repr

/-- The multi-reference video creation request (part_004 lines 174-183). -/
structure MultiVideoCall where
  model : String
  prompt : String
  numberOfVideos : Nat
  referenceImages : List ReferenceImagePayload
  resolution : String
  aspectRatio : String
  deriving DecidableEq, Repr

/-- The video creation call issued by the dispatcher: single-reference or
multi-reference. -/
inductive VideoCreateCall where
  | single (c : SingleVideoCall)
  | multi (c : MultiVideoCall)
  deriving DecidableEq, Repr

/-- The reference payload built for one file (part_004 lines 164-171). -/
def mkReferencePayload (f : FileB) : ReferenceImagePayload :=
  ⟨blobToBase64 f, f.type⟩

/-- The creation request built by `generateFashionVideo`
(part_004 lines 139-184): single-reference with the user's aspect ratio when
exactly one file is present, otherwise multi-reference over the first three
files with the aspect ratio forced to 16:9. -/
def mkVideoCreateCall (files : List FileB) (prompt : String) (ratio : VideoAspectRatio) :
    VideoCreateCall :=
  match files with
  | [f] =>
    .single
      { model := "veo-3.1-fast-generate-preview"
        prompt := prompt
        imageBytes := blobToBase64 f
        imageMime := f.type
        numberOfVideos := 1
        resolution := "720p"
        aspectRatio := ratio.str }
  | fs =>
    .multi
      { model := "veo-3.1-generate-preview"
        prompt := prompt
        numberOfVideos := 1
        referenceImages := (fs.take 3).map mkReferencePayload
        resolution := "720p"
        aspectRatio := "16:9" }

/-- Environment of one `generateFashionVideo` run: the ambient credential and
the remote service's behaviour, given as the outcome of the `j`-th creation
attempt, the successive poll-refresh outcomes, and the outcome of the `j`-th
download attempt. -/
structure VideoEnv where
  apiKey : Option String
  createResults : Nat → Except JsError Operation
  pollResults : List (Except JsError Operation)
  fetchResults : Nat → Except JsError String

/-- Body of the `try` block of `generateFashionVideo`
(part_004 lines 138-216), before the catch-block error normalization:
dispatch (already retry-wrapped), poll, check the terminal operation's error
payload and video URI, then download (retry-wrapped) and build the object
URL.  `none` means the modelled poll outcomes were exhausted while still
polling. -/
def gfvTryResult (env : VideoEnv) : Option (Except JsError String) :=
  match (retryOperation env.createResults 5 2000).1 with
  | .error e => some (.error e)
  | .ok op0 =>
    match pollLoop op0 env.pollResults with
    | none => none
    | some (.error e) => some (.error e)
    | some (.ok opF) =>
      match opF.error with
      | some oe => some (.error ⟨"Video generation failed: " ++ oe.message, none⟩)
      | none =>
        match opF.response with
        | none => some (.error ⟨"No video URI returned.", none⟩)
        | some _ =>
          match (retryOperation env.fetchResults 3 1000).1 with
          | .error e => some (.error e)
          | .ok blob => some (.ok ("blob:" ++ blob))

/-- Application of the catch block of `generateFashionVideo` to the outcome
of its try block. -/
def applyVideoCatch : Except JsError String → Except JsError String
  | .ok v => .ok v
  | .error e => .error (normalizeAuthError e)

/-- Observable outcome of one `generateFashionVideo` run: the returned value
or thrown error (`none` while still polling), and the creation call issued
(`none` when validation failed before any network call). -/
structure VideoRun where
  result : Option (Except JsError String)
  call : Option VideoCreateCall

/-- Model of `generateFashionVideo` (part_004 lines 117-225). -/
def generateFashionVideo (env : VideoEnv) (assets : UploadedAssets)
    (config : GenerationConfig) : VideoRun :=
  match env.apiKey with
  | none => { result := some (.error apiKeyNotFoundError), call := none }
  | some _ =>
    let files := orderedFiles assets
    if files.isEmpty then
      { result := some (.error noAssetsError), call := none }
    else
      let fullPrompt := buildCommonPrompt config files.length ++ " Generate a cinematic video."
      { result := (gfvTryResult env).map applyVideoCatch
        call := some (mkVideoCreateCall files fullPrompt config.aspectRatio) }

/-- The inline image payload of a response part (`part.inlineData`). -/
structure InlineData where
  data : String
  mimeType : Option String
  deriving DecidableEq, Repr

/-- One content part of a response candidate. -/
structure RespPart where
  inlineData : Option InlineData
  deriving DecidableEq, Repr

/-- The content of a response candidate, with its optional parts list. -/
structure CandContent where
  parts : Option (List RespPart)
  deriving DecidableEq, Repr

/-- One candidate of a `GenerateContentResponse`. -/
structure Candidate where
  content : Option CandContent
  deriving DecidableEq, Repr

/-- The image-generation response: an optional candidate list. -/
structure GenContentResponse where
  candidates : Option (List Candidate)
  deriving DecidableEq, Repr

/-- Scan of a candidate's parts in order for the first inline image payload
(part_004 lines 274-285). -/
def firstInlineInParts : List RespPart → Option InlineData
  | [] => none
  | p :: ps =>
    match p.inlineData with
    | some d => some d
    | none => firstInlineInParts ps

/-- Scan of the candidates in order for the first inline image payload
(part_004 lines 272-288); candidates without content or parts are skipped. -/
def firstInlineInCandidates : List Candidate → Option InlineData
  | [] => none
  | c :: cs =>
    match c.content with
    | some content =>
      match content.parts with
      | some parts =>
        match firstInlineInParts parts with
        | some d => some d
        | none => firstInlineInCandidates cs
      | none => firstInlineInCandidates cs
    | none => firstInlineInCandidates cs

/-- The response scan of `generateFashionImage` (part_004 lines 271-289). -/
def findInlineImage (resp : GenContentResponse) : Option InlineData :=
  match resp.candidates with
  | some cands => firstInlineInCandidates cands
  | none => none

/-- Modelled from the spec: the sequence of inline image payloads of a
response "scanning candidates in order and, within each candidate, content
parts in order"; used to characterize which payload the source-level scan
returns first. -/
def inlinePayloadsInOrder (resp : GenContentResponse) : List InlineData :=
  (resp.candidates.getD []).flatMap fun c =>
    ((c.content.bind fun content => content.parts).getD []).filterMap fun p => p.inlineData

/-- `"No image data found in response."` (part_004 line 291). -/
def noImageDataError : JsError :=
  ⟨"No image data found in response.", none⟩

/-- One request part of the image-generation call: an inline image or the
prompt text (part_004 lines 245-255). -/
inductive ReqPart where
  | inlineData (data : String) (mimeType : String)
  | text (t : String)
  deriving DecidableEq, Repr

/-- The image-generation request issued by `generateFashionImage`
(part_004 lines 258-267). -/
structure ImgCall where
  model : String
  parts : List ReqPart
  aspectRatio : String
  imageSize : String
  deriving DecidableEq, Repr

/-- The media handle returned by `generateFashionImage`: the decoded payload
plus its MIME type (defaulting to image/png). -/
structure ImgHandle where
  data : String
  mimeType : String
  deriving DecidableEq, Repr

/-- Environment of one `generateFashionImage` run: the ambient credential and
the outcome of the `j`-th `generateContent` attempt. -/
structure ImgEnv where
  apiKey : Option String
  genResults : Nat → Except JsError GenContentResponse

/-- Observable outcome of one `generateFashionImage` run: the returned handle
or thrown error, and the request issued (`none` when validation failed before
any network call). -/
structure ImgRun where
  result : Except JsError ImgHandle
  call : Option ImgCall

/-- Model of `generateFashionImage` (part_004 lines 228-297).  Its catch
block only logs and rethrows, so errors propagate unmodified. -/
def generateFashionImage (env : ImgEnv) (assets : UploadedAssets)
    (config : GenerationConfig) : ImgRun :=
  match env.apiKey with
  | none => { result := .error apiKeyNotFoundError, call := none }
  | some _ =>
    let files := orderedFiles assets
    if files.isEmpty then
      { result := .error noAssetsError, call := none }
    else
      let fullPrompt :=
        buildCommonPrompt config files.length ++ " Generate a high-quality fashion photograph."
      let parts :=
        (files.map fun f => ReqPart.inlineData (blobToBase64 f) f.type) ++ [ReqPart.text fullPrompt]
      { result :=
          match (retryOperation env.genResults 5 2000).1 with
          | .error e => .error e
          | .ok resp =>
            match findInlineImage resp with
            | some d => .ok ⟨d.data, d.mimeType.getD "image/png"⟩
            | none => .error noImageDataError
        call :=
          some
            { model := "gemini-3-pro-image-preview"
              parts := parts
              aspectRatio := if config.aspectRatio.str = "16:9" then "16:9" else "9:16"
              imageSize := "2K" } }

/-- The host-provided `window.aistudio` capability object; the optional
`hasSelectedApiKey` field holds the value its query would resolve to when the
capability is present. -/
structure AIStudio where
  hasSelectedApiKey : Option Bool
  deriving DecidableEq, Repr

/-- The host window, with its optional `aistudio` property. -/
structure HostWindow where
  aistudio : Option AIStudio
  deriving DecidableEq, Repr

/-- Model of `checkApiKeySelection` (part_004 lines 5-10): query the host
capability when it exists, otherwise resolve to `true`. -/
def checkApiKeySelection (w : HostWindow) : Bool :=
  match w.aistudio with
  | some st =>
    match st.hasSelectedApiKey with
    | some answer => answer
    | none => true
  | none => true

/-! Concrete sample data used to instantiate the theorems below. -/

/-- Sample uploaded file for the top slot. -/
def fileTop : FileB := ⟨"TOPDATA", "image/png"⟩

/-- Sample uploaded file for the bottom slot. -/
def fileBottom : FileB := ⟨"BOTTOMDATA", "image/jpeg"⟩

/-- Sample uploaded file for the shoes slot. -/
def fileShoes : FileB := ⟨"SHOESDATA", "image/png"⟩

/-- Sample uploaded file for the accessories slot. -/
def fileAcc : FileB := ⟨"ACCDATA", "image/webp"⟩

/-- All four slots populated. -/
def assetsAll : UploadedAssets := ⟨some fileTop, some fileBottom, some fileShoes, some fileAcc⟩

/-- Only the top slot populated. -/
def assetsOne : UploadedAssets := ⟨some fileTop, none, none, none⟩

/-- No slot populated. -/
def assetsNone : UploadedAssets := ⟨none, none, none, none⟩

/-- A sample configuration requesting the portrait aspect ratio. -/
def cfgPortrait : GenerationConfig :=
  { mode := .video
    prompt := ""
    gender := .female
    modelId := "sofia"
    bodyType := "slim"
    cameraAngle := "Eye level shot"
    style := "studio"
    aspectRatio := .r916
    materialDesc := "" }

/-- A sample configuration requesting the landscape aspect ratio. -/
def cfgLandscape : GenerationConfig :=
  { cfgPortrait with aspectRatio := .r169 }

/-- A configuration whose free-text material description happens to contain
the single-asset outfit phrasing. -/
def cfgMaterialExact : GenerationConfig :=
  { cfgPortrait with materialDesc := "exact outfit" }

/-- A transient error: its message carries the 503 marker. -/
def e503 : JsError := ⟨"503 Service Unavailable", none⟩

/-- A non-transient error: a 400-class validation failure. -/
def e400 : JsError := ⟨"400 Bad Request", none⟩

/-- A rate-limit error: transient for the retry wrapper via its 429 marker,
but not tolerated by the polling loop. -/
def e429 : JsError := ⟨"429 RESOURCE_EXHAUSTED", none⟩

/-- The credential-expiry signal returned by the service. -/
def eNotFound : JsError := ⟨"Requested entity was not found", none⟩

/-- A non-transient error without any credential-expiry marker. -/
def eQuota : JsError := ⟨"quota exceeded", none⟩

/-- An operation that fails transiently twice and then succeeds. -/
def fnFlaky : Nat → Except JsError Nat :=
  fun i => if i < 2 then .error e503 else .ok 37

/-- An operation that fails non-transiently on its first invocation. -/
def fnFatal : Nat → Except JsError Nat :=
  fun _ => .error e400

/-- An operation that fails transiently on every invocation. -/
def fnAlways503 : Nat → Except JsError Nat :=
  fun _ => .error e503

/-- A freshly created, not-yet-done operation. -/
def opStart : Operation := ⟨false, none, none⟩

/-- A refreshed, still-not-done operation. -/
def opMid : Operation := ⟨false, none, none⟩

/-- A done operation carrying a result URI. -/
def opDone : Operation := ⟨true, none, some "https://example.test/video"⟩

/-- A done operation carrying an error payload. -/
def opDoneErr : Operation := ⟨true, some ⟨"boom"⟩, none⟩

/-- A video environment whose service creates a job, reports it done with a
result after two ticks (surviving one transient refresh failure), and serves
the download. -/
def envVideoOk : VideoEnv :=
  { apiKey := some "key"
    createResults := fun _ => .ok opStart
    pollResults := [.ok opMid, .error e503, .ok opMid, .ok opDone]
    fetchResults := fun _ => .ok "VIDEOBYTES" }

/-- A video environment whose job finishes with an error payload. -/
def envVideoDoneErr : VideoEnv :=
  { apiKey := some "key"
    createResults := fun _ => .ok opStart
    pollResults := [.ok opDoneErr]
    fetchResults := fun _ => .ok "VIDEOBYTES" }

/-- A video environment whose creation call always fails with the
credential-expiry signal. -/
def envVideoNotFound : VideoEnv :=
  { apiKey := some "key"
    createResults := fun _ => .error eNotFound
    pollResults := []
    fetchResults := fun _ => .ok "VIDEOBYTES" }

/-- A video environment whose creation call always fails with a non-transient
error carrying no credential-expiry marker. -/
def envVideoQuota : VideoEnv :=
  { envVideoNotFound with createResults := fun _ => .error eQuota }

/-- A response part carrying no inline image. -/
def partTextOnly : RespPart := ⟨none⟩

/-- The first inline image payload of the sample response. -/
def inlineA : InlineData := ⟨"IMGDATA1", some "image/jpeg"⟩

/-- A second inline image payload appearing later in the sample response. -/
def inlineB : InlineData := ⟨"IMGDATA2", none⟩

/-- A sample response: an empty candidate, then a candidate whose second part
holds the first inline payload, then a candidate holding another payload. -/
def respWithImages : GenContentResponse :=
  ⟨some [⟨none⟩, ⟨some ⟨some [partTextOnly, ⟨some inlineA⟩]⟩⟩, ⟨some ⟨some [⟨some inlineB⟩]⟩⟩]⟩

/-- A sample response with candidates but no inline payload anywhere. -/
def respNoImages : GenContentResponse :=
  ⟨some [⟨none⟩, ⟨some ⟨none⟩⟩, ⟨some ⟨some [partTextOnly]⟩⟩]⟩

/-- An image environment answering every generation attempt with the sample
response carrying inline images. -/
def envImgOk : ImgEnv :=
  { apiKey := some "key", genResults := fun _ => .ok respWithImages }

/-- An image environment answering with the imageless sample response. -/
def envImgEmpty : ImgEnv :=
  { apiKey := some "key", genResults := fun _ => .ok respNoImages }

/-- An image environment whose generation call always fails with the
credential-expiry signal. -/
def envImgNotFound : ImgEnv :=
  { apiKey := some "key", genResults := fun _ => .error eNotFound }

/-- A host window with no `aistudio` property at all. -/
def hostBare : HostWindow := ⟨none⟩

/-- A host window whose `aistudio` object lacks the `hasSelectedApiKey`
capability. -/
def hostNoQuery : HostWindow := ⟨some ⟨none⟩⟩

/-! Helper lemmas about substring search. -/

theorem strStartsAt_append_self (p t : List Char) : strStartsAt p (p ++ t) = true := by
  induction p with
  | nil => rfl
  | cons c cs ih => simp [strStartsAt, ih]

theorem strStartsAt_nil_of (p : List Char) (h : strStartsAt p [] = true) : p = [] := by
  cases p with
  | nil => rfl
  | cons c cs => simp [strStartsAt] at h

theorem strStartsAt_extend (p s t : List Char) (h : strStartsAt p s = true) :
    strStartsAt p (s ++ t) = true := by
  induction p generalizing s with
  | nil => rfl
  | cons c cs ih =>
    cases s with
    | nil => simp [strStartsAt] at h
    | cons b bs =>
      simp only [strStartsAt, Bool.and_eq_true, beq_iff_eq] at h
      simp only [List.cons_append, strStartsAt, Bool.and_eq_true, beq_iff_eq]
      exact ⟨h.1, ih bs h.2⟩

theorem hasSubstr_of_startsAt (p s : List Char) (h : strStartsAt p s = true) :
    hasSubstr p s = true := by
  cases s with
  | nil => simpa [hasSubstr] using h
  | cons c cs => simp [hasSubstr, h]

theorem hasSubstr_append_left (p s t : List Char) (h : hasSubstr p t = true) :
    hasSubstr p (s ++ t) = true := by
  induction s with
  | nil => simpa using h
  | cons c cs ih => simp [hasSubstr, ih]

theorem hasSubstr_append_right (p s t : List Char) (h : hasSubstr p s = true) :
    hasSubstr p (s ++ t) = true := by
  induction s with
  | nil =>
    have hp : p = [] := strStartsAt_nil_of p (by simpa [hasSubstr] using h)
    subst hp
    cases t with
    | nil => rfl
    | cons c cs => simp [hasSubstr, strStartsAt]
  | cons c cs ih =>
    simp only [hasSubstr, Bool.or_eq_true] at h
    simp only [List.cons_append, hasSubstr, Bool.or_eq_true]
    rcases h with h | h
    · exact Or.inl (strStartsAt_extend _ _ _ h)
    · exact Or.inr (ih h)

theorem string_data_append (s t : String) : (s ++ t).data = s.data ++ t.data := by
  cases s
  cases t
  rfl

/-- A string built around a block that contains the pattern contains the
pattern. -/
theorem msgContains_of_mid (a s m t p : String) (h : hasSubstr p.data s.data = true) :
    msgContains (a ++ (s ++ m) ++ t) p = true := by
  unfold msgContains
  simp only [string_data_append]
  exact hasSubstr_append_right _ _ _ (hasSubstr_append_left _ _ _ (hasSubstr_append_right _ _ _ h))

/-! Helper lemmas about the retry wrapper. -/

theorem retryAux_step_ok {α : Type} (fn : Nat → Except JsError α) (retries baseDelay fuel i : Nat)
    (hi : i < retries) {v : α} (hfn : fn i = .ok v) :
    retryAux fn retries baseDelay (fuel + 1) i = (.ok v, 1, []) := by
  simp [retryAux, hi, hfn]

theorem retryAux_step_fatal {α : Type} (fn : Nat → Except JsError α)
    (retries baseDelay fuel i : Nat) (hi : i < retries) {e : JsError} (hfn : fn i = .error e)
    (hstop : isRetryable e = false ∨ i = retries - 1) :
    retryAux fn retries baseDelay (fuel + 1) i = (.error e, 1, []) := by
  rcases hstop with h | h
  · simp [retryAux, hi, hfn, h]
  · have h0 : 0 < retries := by omega
    subst h
    simp [retryAux, hfn, h0]

theorem retryAux_step_retry {α : Type} (fn : Nat → Except JsError α)
    (retries baseDelay fuel i : Nat) (hi : i < retries) {e : JsError} (hfn : fn i = .error e)
    (hr : isRetryable e = true) (hlast : i ≠ retries - 1) :
    retryAux fn retries baseDelay (fuel + 1) i =
      ((retryAux fn retries baseDelay fuel (i + 1)).1,
       (retryAux fn retries baseDelay fuel (i + 1)).2.1 + 1,
       baseDelay * 2 ^ i :: (retryAux fn retries baseDelay fuel (i + 1)).2.2) := by
  simp [retryAux, hi, hfn, hr, hlast]

theorem retryAux_const_error {α : Type} (e : JsError) (retries baseDelay : Nat) :
    ∀ fuel i, i < retries → retries ≤ i + fuel →
      (retryAux (fun _ => (.error e : Except JsError α)) retries baseDelay fuel i).1 = .error e := by
  intro fuel
  induction fuel with
  | zero => intro i hi hle; omega
  | succ fuel ih =>
    intro i hi hle
    by_cases hstop : isRetryable e = false ∨ i = retries - 1
    · rw [retryAux_step_fatal _ _ _ _ _ hi rfl hstop]
    · push_neg at hstop
      rw [retryAux_step_retry _ _ _ _ _ hi rfl (by simpa using hstop.1) hstop.2]
      exact ih (i + 1) (by omega) (by omega)

theorem retryOperation_const_error {α : Type} (e : JsError) (retries baseDelay : Nat)
    (h : 1 ≤ retries) :
    (retryOperation (fun _ => (.error e : Except JsError α)) retries baseDelay).1 = .error e :=
  retryAux_const_error e retries baseDelay retries 0 (by omega) (by omega)

theorem retryOperation_first_ok {α : Type} (fn : Nat → Except JsError α)
    (retries baseDelay : Nat) {v : α} (h : 1 ≤ retries) (hfn : fn 0 = .ok v) :
    (retryOperation fn retries baseDelay).1 = .ok v := by
  obtain ⟨m, rfl⟩ : ∃ m, retries = m + 1 := ⟨retries - 1, by omega⟩
  rw [retryOperation, retryAux_step_ok _ _ _ _ _ (by omega) hfn]

theorem retryAux_count_pos {α : Type} (fn : Nat → Except JsError α)
    (retries baseDelay fuel i : Nat) (hi : i < retries) (hfuel : 0 < fuel) :
    1 ≤ (retryAux fn retries baseDelay fuel i).2.1 := by
  obtain ⟨m, rfl⟩ : ∃ m, fuel = m + 1 := ⟨fuel - 1, by omega⟩
  cases hfn : fn i with
  | ok v =>
    rw [retryAux_step_ok _ _ _ _ _ hi hfn]
  | error e =>
    by_cases hstop : isRetryable e = false ∨ i = retries - 1
    · rw [retryAux_step_fatal _ _ _ _ _ hi hfn hstop]
    · push_neg at hstop
      rw [retryAux_step_retry _ _ _ _ _ hi hfn (by simpa using hstop.1) hstop.2]
      show 1 ≤ _ + 1
      omega

theorem retryAux_delays {α : Type} (fn : Nat → Except JsError α) (retries baseDelay : Nat) :
    ∀ fuel i, retries ≤ i + fuel →
      (retryAux fn retries baseDelay fuel i).2.2 =
        (List.range ((retryAux fn retries baseDelay fuel i).2.1 - 1)).map
          (fun j => baseDelay * 2 ^ (i + j)) := by
  intro fuel
  induction fuel with
  | zero =>
    intro i hle
    simp [retryAux]
  | succ fuel ih =>
    intro i hle
    by_cases hi : i < retries
    · cases hfn : fn i with
      | ok v =>
        rw [retryAux_step_ok _ _ _ _ _ hi hfn]
        simp
      | error e =>
        by_cases hstop : isRetryable e = false ∨ i = retries - 1
        · rw [retryAux_step_fatal _ _ _ _ _ hi hfn hstop]
          simp
        · push_neg at hstop
          rw [retryAux_step_retry _ _ _ _ _ hi hfn (by simpa using hstop.1) hstop.2]
          have hfuelpos : 0 < fuel := by omega
          have hcount := retryAux_count_pos fn retries baseDelay fuel (i + 1) (by omega) hfuelpos
          obtain ⟨m, hm⟩ : ∃ m, (retryAux fn retries baseDelay fuel (i + 1)).2.1 = m + 1 :=
            ⟨(retryAux fn retries baseDelay fuel (i + 1)).2.1 - 1, by omega⟩
          have ihe := ih (i + 1) (by omega)
          rw [hm] at ihe
          show baseDelay * 2 ^ i :: (retryAux fn retries baseDelay fuel (i + 1)).2.2 =
            (List.range ((retryAux fn retries baseDelay fuel (i + 1)).2.1 + 1 - 1)).map
              (fun j => baseDelay * 2 ^ (i + j))
          rw [hm, ihe, Nat.add_sub_cancel, Nat.add_sub_cancel, List.range_succ_eq_map]
          simp only [List.map_cons, List.map_map, pow_zero]
          have htail : List.map (fun j => baseDelay * 2 ^ (i + 1 + j)) (List.range m) =
              List.map ((fun j => baseDelay * 2 ^ (i + j)) ∘ Nat.succ) (List.range m) := by
            refine List.map_congr_left fun a ha => ?_
            show baseDelay * 2 ^ (i + 1 + a) = baseDelay * 2 ^ (i + (a + 1))
            congr 1
            congr 1
            omega
          rw [htail]
          norm_num
    · simp [retryAux, hi]

theorem retryAux_all_fail {α : Type} (fn : Nat → Except JsError α) (es : Nat → JsError)
    (retries baseDelay : Nat) :
    ∀ fuel i, i < retries → retries ≤ i + fuel →
      (∀ j, i ≤ j → j < retries → fn j = .error (es j) ∧ isRetryable (es j) = true) →
      (retryAux fn retries baseDelay fuel i).1 = .error (es (retries - 1)) ∧
        (retryAux fn retries baseDelay fuel i).2.1 = retries - i := by
  intro fuel
  induction fuel with
  | zero => intro i hi hle; omega
  | succ fuel ih =>
    intro i hi hle hall
    obtain ⟨hfn, hr⟩ := hall i le_rfl hi
    by_cases hlast : i = retries - 1
    · rw [retryAux_step_fatal _ _ _ _ _ hi hfn (Or.inr hlast)]
      refine ⟨by rw [hlast], ?_⟩
      show 1 = retries - i
      omega
    · rw [retryAux_step_retry _ _ _ _ _ hi hfn hr hlast]
      have hrec := ih (i + 1) (by omega) (by omega) (fun j hj1 hj2 => hall j (by omega) hj2)
      refine ⟨hrec.1, ?_⟩
      show (retryAux fn retries baseDelay fuel (i + 1)).2.1 + 1 = retries - i
      have h2 := hrec.2
      omega

theorem retryAux_step_ok' {α : Type} (fn : Nat → Except JsError α)
    (retries baseDelay fuel i : Nat) (hfuel : 0 < fuel) (hi : i < retries) {v : α}
    (hfn : fn i = .ok v) :
    retryAux fn retries baseDelay fuel i = (.ok v, 1, []) := by
  obtain ⟨g, rfl⟩ : ∃ g, fuel = g + 1 := ⟨fuel - 1, by omega⟩
  exact retryAux_step_ok fn retries baseDelay g i hi hfn

theorem retryAux_step_fatal' {α : Type} (fn : Nat → Except JsError α)
    (retries baseDelay fuel i : Nat) (hfuel : 0 < fuel) (hi : i < retries) {e : JsError}
    (hfn : fn i = .error e) (hstop : isRetryable e = false ∨ i = retries - 1) :
    retryAux fn retries baseDelay fuel i = (.error e, 1, []) := by
  obtain ⟨g, rfl⟩ : ∃ g, fuel = g + 1 := ⟨fuel - 1, by omega⟩
  exact retryAux_step_fatal fn retries baseDelay g i hi hfn hstop

theorem retryAux_step_retry' {α : Type} (fn : Nat → Except JsError α)
    (retries baseDelay fuel i : Nat) (hfuel : 0 < fuel) (hi : i < retries) {e : JsError}
    (hfn : fn i = .error e) (hr : isRetryable e = true) (hlast : i ≠ retries - 1) :
    retryAux fn retries baseDelay fuel i =
      ((retryAux fn retries baseDelay (fuel - 1) (i + 1)).1,
       (retryAux fn retries baseDelay (fuel - 1) (i + 1)).2.1 + 1,
       baseDelay * 2 ^ i :: (retryAux fn retries baseDelay (fuel - 1) (i + 1)).2.2) := by
  obtain ⟨g, rfl⟩ : ∃ g, fuel = g + 1 := ⟨fuel - 1, by omega⟩
  simpa using retryAux_step_retry fn retries baseDelay g i hi hfn hr hlast

/-! Helper lemmas about substring search through appends, at the String level. -/

theorem strStartsAt_self (p : List Char) : strStartsAt p p = true := by
  simpa using strStartsAt_append_self p []

theorem msgContains_self (p : String) : msgContains p p = true :=
  hasSubstr_of_startsAt _ _ (strStartsAt_self _)

theorem msgContains_append_of_left (s t p : String) (h : msgContains s p = true) :
    msgContains (s ++ t) p = true := by
  unfold msgContains at *
  rw [string_data_append]
  exact hasSubstr_append_right _ _ _ h

theorem msgContains_append_of_right (s t p : String) (h : msgContains t p = true) :
    msgContains (s ++ t) p = true := by
  unfold msgContains at *
  rw [string_data_append]
  exact hasSubstr_append_left _ _ _ h

/-! Helper lemmas about the response scan of the image dispatcher. -/

theorem firstInlineInParts_eq (ps : List RespPart) :
    firstInlineInParts ps = (ps.filterMap fun p => p.inlineData).head? := by
  induction ps with
  | nil => rfl
  | cons p ps ih =>
    cases hp : p.inlineData with
    | some d => simp [firstInlineInParts, List.filterMap_cons, hp]
    | none => simp [firstInlineInParts, List.filterMap_cons, hp, ih]

theorem firstInlineInCandidates_eq (cs : List Candidate) :
    firstInlineInCandidates cs =
      (cs.flatMap fun c =>
        ((c.content.bind fun content => content.parts).getD []).filterMap
          fun p => p.inlineData).head? := by
  induction cs with
  | nil => rfl
  | cons c cs ih =>
    rw [List.flatMap_cons, List.head?_append]
    cases hc : c.content with
    | none => simpa [firstInlineInCandidates, hc] using ih
    | some content =>
      cases hp : content.parts with
      | none => simpa [firstInlineInCandidates, hc, hp] using ih
      | some parts =>
        have hparts := firstInlineInParts_eq parts
        cases hf : firstInlineInParts parts with
        | some d =>
          rw [hf] at hparts
          simp [firstInlineInCandidates, hc, hp, hf, ← hparts]
        | none =>
          rw [hf] at hparts
          simpa [firstInlineInCandidates, hc, hp, hf, ← hparts] using ih

theorem findInlineImage_eq (resp : GenContentResponse) :
    findInlineImage resp = (inlinePayloadsInOrder resp).head? := by
  cases hc : resp.candidates with
  | none => simp [findInlineImage, inlinePayloadsInOrder, hc]
  | some cands => simp [findInlineImage, inlinePayloadsInOrder, hc, firstInlineInCandidates_eq]

/-! Helper lemma about the polling loop. -/

theorem pollLoop_append_done (init : List (Except JsError Operation)) :
    ∀ op0 : Operation, op0.done = false →
      (∀ r ∈ init, pollRespOk r = true) →
      ∀ fin : Operation, fin.done = true →
        pollLoop op0 (init ++ [Except.ok fin]) = some (.ok fin) := by
  induction init with
  | nil =>
    intro op0 h0 _ fin hfin
    simp [pollLoop, h0, hfin]
  | cons r rest ih =>
    intro op0 h0 hall fin hfin
    have hr := hall r (List.mem_cons_self r rest)
    cases r with
    | ok op2 =>
      have h2 : op2.done = false := by simpa [pollRespOk] using hr
      rw [List.cons_append, pollLoop]
      simp only [h0, Bool.false_eq_true, if_false]
      exact ih op2 h2 (fun q hq => hall q (List.mem_cons_of_mem _ hq)) fin hfin
    | error e =>
      have htr : isPollTransient e = true := by simpa [pollRespOk] using hr
      rw [List.cons_append, pollLoop]
      simp only [h0, Bool.false_eq_true, if_false, htr, if_true]
      exact ih op0 h0 (fun q hq => hall q (List.mem_cons_of_mem _ hq)) fin hfin

/-! Claim C2 — the retry wrapper. -/

/-- C2 (amended): for every wrapped operation with attempt count n ≥ 1 and
base delay b: the backoff delays slept are exactly b·2^0, …, b·2^(k−2) when k
invocations occur (each retried failure at attempt index i sleeps b·2^i);
provided n ≥ 3, an operation failing transiently twice then succeeding
returns the success value after exactly 3 invocations; a non-transient first
failure propagates after exactly 1 invocation; and when all n permitted
attempts fail transiently the last error propagates after exactly n
invocations (a transient failure on the last permitted attempt is not
retried). -/
theorem retryOperation_spec {α : Type} (fn : Nat → Except JsError α) (n b : Nat)
    (e0 e1 efatal : JsError) (v : α) (es : Nat → JsError) :
    ((retryOperation fn n b).2.2 =
      (List.range ((retryOperation fn n b).2.1 - 1)).map (fun j => b * 2 ^ j)) ∧
    (3 ≤ n → fn 0 = .error e0 → isRetryable e0 = true → fn 1 = .error e1 →
      isRetryable e1 = true → fn 2 = .ok v →
      (retryOperation fn n b).1 = .ok v ∧ (retryOperation fn n b).2.1 = 3) ∧
    (1 ≤ n → fn 0 = .error efatal → isRetryable efatal = false →
      (retryOperation fn n b).1 = .error efatal ∧ (retryOperation fn n b).2.1 = 1) ∧
    (1 ≤ n → (∀ j, j < n → fn j = .error (es j) ∧ isRetryable (es j) = true) →
      (retryOperation fn n b).1 = .error (es (n - 1)) ∧ (retryOperation fn n b).2.1 = n) := by
  refine ⟨?_, ?_, ?_, ?_⟩
  · have h := retryAux_delays fn n b n 0 (by omega)
    simpa [retryOperation] using h
  · intro h3 h0 hr0 h1 hr1 h2
    have s0 := retryAux_step_retry' fn n b n 0 (by omega) (by omega) h0 hr0 (by omega)
    have s1 := retryAux_step_retry' fn n b (n - 1) 1 (by omega) (by omega) h1 hr1 (by omega)
    have s2 := retryAux_step_ok' fn n b (n - 1 - 1) 2 (by omega) (by omega) h2
    constructor
    · show (retryAux fn n b n 0).1 = .ok v
      rw [s0]
      show (retryAux fn n b (n - 1) 1).1 = .ok v
      rw [s1]
      show (retryAux fn n b (n - 1 - 1) 2).1 = .ok v
      rw [s2]
    · show (retryAux fn n b n 0).2.1 = 3
      rw [s0]
      show (retryAux fn n b (n - 1) 1).2.1 + 1 = 3
      rw [s1]
      show ((retryAux fn n b (n - 1 - 1) 2).2.1 + 1) + 1 = 3
      rw [s2]
  · intro hn hf hr
    have s0 := retryAux_step_fatal' fn n b n 0 (by omega) (by omega) hf (Or.inl hr)
    constructor
    · show (retryAux fn n b n 0).1 = .error efatal
      rw [s0]
    · show (retryAux fn n b n 0).2.1 = 1
      rw [s0]
  · intro hn hall
    have h := retryAux_all_fail fn es n b n 0 (by omega) (by omega) (fun j _ hj => hall j hj)
    exact ⟨h.1, by simpa [retryOperation] using h.2⟩

/-- C2 witness: the amended scenarios at concrete operations, by direct
application of the theorem. -/
theorem retryOperation_spec_witness :
    ((retryOperation fnFlaky 5 2000).1 = .ok 37 ∧ (retryOperation fnFlaky 5 2000).2.1 = 3) ∧
    ((retryOperation fnFatal 5 2000).1 = .error e400 ∧ (retryOperation fnFatal 5 2000).2.1 = 1) ∧
    ((retryOperation fnAlways503 3 2000).1 = .error e503 ∧
      (retryOperation fnAlways503 3 2000).2.1 = 3) :=
  ⟨(retryOperation_spec fnFlaky 5 2000 e503 e503 e400 37 (fun _ => e503)).2.1
      (by norm_num) rfl (by decide) rfl (by decide) rfl,
   (retryOperation_spec fnFatal 5 2000 e503 e503 e400 0 (fun _ => e400)).2.2.1
      (by norm_num) rfl (by decide),
   (retryOperation_spec fnAlways503 3 2000 e503 e503 e400 0 (fun _ => e503)).2.2.2
      (by norm_num) (fun j _ => ⟨rfl, by decide⟩)⟩

/-- C2 counterexample: with attempt count 2 (allowed by the claim's "n ≥ 1"),
an operation that fails transiently twice and then would succeed is not
retried a third time: the wrapper propagates the transient error after
exactly 2 invocations instead of returning the success value after 3. -/
theorem retryOperation_budget_counterexample :
    isRetryable e503 = true ∧ fnFlaky 0 = .error e503 ∧ fnFlaky 1 = .error e503 ∧
    fnFlaky 2 = .ok 37 ∧
    (retryOperation fnFlaky 2 2000).1 = .error e503 ∧
    (retryOperation fnFlaky 2 2000).2.1 = 2 := by
  refine ⟨by decide, rfl, rfl, rfl, by decide, by decide⟩

/-! Claim C3 — tolerant polling. -/

/-- C3 (amended): a poll-refresh sequence whose failures all carry one of the
markers the polling loop itself tolerates (overloaded, internal server issue,
500, 503 — not the retry wrapper's full classification) and which ends in a
done operation carrying a result is survived: the loop never transitions to
failed, keeps polling through each tolerated failure with no attempt budget,
and terminates with the final operation. -/
theorem pollLoop_survives_transient (op0 fin : Operation) (uri : String)
    (init : List (Except JsError Operation)) (h0 : op0.done = false)
    (hinit : ∀ r ∈ init, pollRespOk r = true)
    (hfin : fin.done = true) (hres : fin.response = some uri) :
    pollLoop op0 (init ++ [Except.ok fin]) = some (.ok fin) :=
  pollLoop_append_done init op0 h0 hinit fin hfin

/-- C3 witness: the spec's scenario [not-done, transient-failure, not-done,
done-with-result] terminates in the done state with the final result. -/
theorem pollLoop_survives_transient_witness :
    opStart.done = false ∧
    (∀ r ∈ [Except.ok opMid, Except.error e503, Except.ok opMid], pollRespOk r = true) ∧
    pollLoop opStart
        ([Except.ok opMid, Except.error e503, Except.ok opMid] ++ [Except.ok opDone]) =
      some (.ok opDone) :=
  ⟨rfl, by decide,
   pollLoop_survives_transient opStart opDone "https://example.test/video" _ rfl (by decide)
     rfl rfl⟩

/-- C3 counterexample: a refresh failure with the 429 rate-limit marker is
transient per the §4.4 retry classification, and the sequence ends in a done
operation carrying a result, yet the polling loop transitions to failed on
that refresh failure instead of surviving it. -/
theorem pollLoop_429_counterexample :
    isRetryable e429 = true ∧ opStart.done = false ∧ opDone.done = true ∧
    opDone.response = some "https://example.test/video" ∧
    pollLoop opStart [Except.error e429, Except.ok opDone] = some (.error e429) := by
  refine ⟨by decide, rfl, rfl, rfl, by decide⟩

/-! Claim C9 — outfit phrasing of the prompt builder. -/

/-- C9 (amended): the prompt builder is total, and its output contains the
"complete outfit" phrasing whenever more than one asset is supplied, and the
"exact outfit" phrasing whenever exactly one asset is supplied.  (The
converse containments do not hold for every configuration, because free-text
configuration fields are embedded verbatim; see the counterexample.) -/
theorem buildCommonPrompt_outfit_phrasing (config : GenerationConfig) (assetCount : Nat) :
    (1 < assetCount →
      msgContains (buildCommonPrompt config assetCount) "complete outfit" = true) ∧
    (assetCount = 1 →
      msgContains (buildCommonPrompt config assetCount) "exact outfit" = true) := by
  constructor
  · intro h
    unfold buildCommonPrompt
    simp only [gt_iff_lt, h, if_true]
    apply msgContains_append_of_left
    apply msgContains_append_of_right
    apply msgContains_append_of_left
    decide
  · intro h
    subst h
    unfold buildCommonPrompt
    simp only [gt_iff_lt, lt_self_iff_false, if_false]
    apply msgContains_append_of_left
    apply msgContains_append_of_right
    apply msgContains_append_of_left
    decide

/-- C9 witness: both phrasings at a concrete configuration, by direct
application of the theorem. -/
theorem buildCommonPrompt_outfit_phrasing_witness :
    (1 < 2 ∧ msgContains (buildCommonPrompt cfgPortrait 2) "complete outfit" = true) ∧
    msgContains (buildCommonPrompt cfgPortrait 1) "exact outfit" = true :=
  ⟨⟨by norm_num, (buildCommonPrompt_outfit_phrasing cfgPortrait 2).1 (by norm_num)⟩,
   (buildCommonPrompt_outfit_phrasing cfgPortrait 1).2 rfl⟩

/-- C9 counterexample: with a material description that itself contains the
words "exact outfit", the prompt built for two assets contains the
"exact outfit" phrasing although the asset count is not 1, refuting the
claimed "if and only if". -/
theorem buildCommonPrompt_iff_counterexample :
    msgContains (buildCommonPrompt cfgMaterialExact 2) "exact outfit" = true ∧ 2 ≠ 1 := by
  refine ⟨by decide, by decide⟩

/-! Claim C10 — default credential-presence check. -/

/-- C10: when the host environment does not provide the
window.aistudio.hasSelectedApiKey capability — the aistudio property is
absent, or present without the query — checkApiKeySelection resolves to
true, so the credential-presence gate passes by default. -/
theorem checkApiKeySelection_defaults_true (w : HostWindow)
    (h : w.aistudio = none ∨ ∃ st, w.aistudio = some st ∧ st.hasSelectedApiKey = none) :
    checkApiKeySelection w = true := by
  rcases h with h | ⟨st, hst, hcap⟩
  · simp [checkApiKeySelection, h]
  · simp [checkApiKeySelection, hst, hcap]

/-- C10 witness: both capability-free host shapes, by direct application of
the theorem. -/
theorem checkApiKeySelection_defaults_true_witness :
    hostBare.aistudio = none ∧ checkApiKeySelection hostBare = true ∧
      checkApiKeySelection hostNoQuery = true :=
  ⟨rfl, checkApiKeySelection_defaults_true hostBare (Or.inl rfl),
   checkApiKeySelection_defaults_true hostNoQuery (Or.inr ⟨⟨none⟩, rfl, rfl⟩)⟩

/-! Claim C1 — the multi-reference video call. -/

/-- C1: with a credential present and more than one asset slot populated, the
multi-reference video creation call receives exactly the first three files of
the canonical slot order [top, bottom, shoes, accessories] (so with all four
slots populated, accessories is dropped), and its aspect ratio is 16:9
regardless of config.aspectRatio. -/
theorem generateFashionVideo_multi_call (env : VideoEnv) (assets : UploadedAssets)
    (config : GenerationConfig) (k : String) (hk : env.apiKey = some k)
    (h2 : 2 ≤ (orderedFiles assets).length) :
    (generateFashionVideo env assets config).call =
      some (.multi
        { model := "veo-3.1-generate-preview"
          prompt := buildCommonPrompt config (orderedFiles assets).length ++
            " Generate a cinematic video."
          numberOfVideos := 1
          referenceImages := ((orderedFiles assets).take 3).map mkReferencePayload
          resolution := "720p"
          aspectRatio := "16:9" }) := by
  obtain ⟨a, c, rest, hfiles⟩ : ∃ a c rest, orderedFiles assets = a :: c :: rest := by
    rcases hof : orderedFiles assets with _ | ⟨a, _ | ⟨c, rest⟩⟩
    · rw [hof] at h2; simp at h2
    · rw [hof] at h2; simp at h2
    · exact ⟨a, c, rest, rfl⟩
  simp [generateFashionVideo, hk, hfiles, mkVideoCreateCall]

/-- C1 witness: all four slots populated; the call carries only the top,
bottom and shoes payloads (accessories dropped) and the 16:9 ratio though the
configuration asked for 9:16. -/
theorem generateFashionVideo_multi_call_witness :
    2 ≤ (orderedFiles assetsAll).length ∧
    (generateFashionVideo envVideoOk assetsAll cfgPortrait).call =
      some (.multi
        { model := "veo-3.1-generate-preview"
          prompt := buildCommonPrompt cfgPortrait (orderedFiles assetsAll).length ++
            " Generate a cinematic video."
          numberOfVideos := 1
          referenceImages := ((orderedFiles assetsAll).take 3).map mkReferencePayload
          resolution := "720p"
          aspectRatio := "16:9" }) ∧
    ((orderedFiles assetsAll).take 3).map mkReferencePayload =
      [mkReferencePayload fileTop, mkReferencePayload fileBottom, mkReferencePayload fileShoes] ∧
    cfgPortrait.aspectRatio.str = "9:16" :=
  ⟨by decide,
   generateFashionVideo_multi_call envVideoOk assetsAll cfgPortrait "key" rfl (by decide),
   by decide, by decide⟩

/-! Claim C8 — the single-reference video call. -/

/-- C8: with a credential present and exactly one asset slot populated, the
single-reference video creation call passes config.aspectRatio through
unchanged, whichever of the two values it holds. -/
theorem generateFashionVideo_single_call (env : VideoEnv) (assets : UploadedAssets)
    (config : GenerationConfig) (k : String) (f : FileB) (hk : env.apiKey = some k)
    (h1 : orderedFiles assets = [f]) :
    (generateFashionVideo env assets config).call =
      some (.single
        { model := "veo-3.1-fast-generate-preview"
          prompt := buildCommonPrompt config 1 ++ " Generate a cinematic video."
          imageBytes := blobToBase64 f
          imageMime := f.type
          numberOfVideos := 1
          resolution := "720p"
          aspectRatio := config.aspectRatio.str }) := by
  simp [generateFashionVideo, hk, h1, mkVideoCreateCall]

/-- C8 witness: one asset, both aspect-ratio values passed through
unchanged. -/
theorem generateFashionVideo_single_call_witness :
    orderedFiles assetsOne = [fileTop] ∧
    (generateFashionVideo envVideoOk assetsOne cfgPortrait).call =
      some (.single
        { model := "veo-3.1-fast-generate-preview"
          prompt := buildCommonPrompt cfgPortrait 1 ++ " Generate a cinematic video."
          imageBytes := blobToBase64 fileTop
          imageMime := fileTop.type
          numberOfVideos := 1
          resolution := "720p"
          aspectRatio := cfgPortrait.aspectRatio.str }) ∧
    cfgPortrait.aspectRatio.str = "9:16" ∧
    (generateFashionVideo envVideoOk assetsOne cfgLandscape).call =
      some (.single
        { model := "veo-3.1-fast-generate-preview"
          prompt := buildCommonPrompt cfgLandscape 1 ++ " Generate a cinematic video."
          imageBytes := blobToBase64 fileTop
          imageMime := fileTop.type
          numberOfVideos := 1
          resolution := "720p"
          aspectRatio := cfgLandscape.aspectRatio.str }) ∧
    cfgLandscape.aspectRatio.str = "16:9" :=
  ⟨rfl,
   generateFashionVideo_single_call envVideoOk assetsOne cfgPortrait "key" fileTop rfl rfl,
   by decide,
   generateFashionVideo_single_call envVideoOk assetsOne cfgLandscape "key" fileTop rfl rfl,
   by decide⟩

/-! Claim C6 — empty asset mapping. -/

/-- C6: with a credential present and no asset slot populated, both entry
points fail with the missing-assets validation error before any creation
call is issued, for every configuration and every service behaviour. -/
theorem generate_empty_assets_validation (envV : VideoEnv) (envI : ImgEnv)
    (config : GenerationConfig) (kV kI : String)
    (hkV : envV.apiKey = some kV) (hkI : envI.apiKey = some kI) :
    ((generateFashionVideo envV assetsNone config).result = some (.error noAssetsError) ∧
      (generateFashionVideo envV assetsNone config).call = none) ∧
    ((generateFashionImage envI assetsNone config).result = .error noAssetsError ∧
      (generateFashionImage envI assetsNone config).call = none) := by
  refine ⟨⟨?_, ?_⟩, ⟨?_, ?_⟩⟩ <;>
    simp [generateFashionVideo, generateFashionImage, hkV, hkI, orderedFiles, assetsNone]

/-- C6 witness: the empty mapping at concrete environments and
configuration, by direct application of the theorem. -/
theorem generate_empty_assets_validation_witness :
    (generateFashionVideo envVideoOk assetsNone cfgPortrait).result =
      some (.error noAssetsError) ∧
    (generateFashionVideo envVideoOk assetsNone cfgPortrait).call = none ∧
    (generateFashionImage envImgOk assetsNone cfgPortrait).result = .error noAssetsError ∧
    (generateFashionImage envImgOk assetsNone cfgPortrait).call = none :=
  have h := generate_empty_assets_validation envVideoOk envImgOk cfgPortrait "key" "key" rfl rfl
  ⟨h.1.1, h.1.2, h.2.1, h.2.2⟩

/-! Claim C4 — done operation carrying an error payload. -/

/-- C4 (amended): when polling ends in a done operation carrying an error
payload, generateFashionVideo terminates in the failed state by throwing; the
thrown error's message is "Video generation failed: " followed by the
payload's message (then subject to the catch block's credential-expiry
normalization), not the payload's message itself. -/
theorem generateFashionVideo_done_error (env : VideoEnv) (assets : UploadedAssets)
    (config : GenerationConfig) (k : String) (op0 fin : Operation)
    (init : List (Except JsError Operation)) (m : String)
    (hk : env.apiKey = some k) (hne : (orderedFiles assets).isEmpty = false)
    (hc : env.createResults 0 = .ok op0) (h0 : op0.done = false)
    (hpoll : env.pollResults = init ++ [Except.ok fin])
    (hinit : ∀ r ∈ init, pollRespOk r = true)
    (hfin : fin.done = true) (herr : fin.error = some ⟨m⟩) :
    (generateFashionVideo env assets config).result =
      some (.error (normalizeAuthError ⟨"Video generation failed: " ++ m, none⟩)) := by
  have hretry := retryOperation_first_ok env.createResults 5 2000 (by norm_num) hc
  have hpl := pollLoop_append_done init op0 h0 hinit fin hfin
  simp [generateFashionVideo, gfvTryResult, applyVideoCatch, hk, hne, hretry, hpoll, hpl, herr]

/-- C4 witness: a run whose job finishes with payload message "boom" throws
the prefixed failure message, by direct application of the theorem. -/
theorem generateFashionVideo_done_error_witness :
    (generateFashionVideo envVideoDoneErr assetsOne cfgPortrait).result =
      some (.error ⟨"Video generation failed: boom", none⟩) :=
  (generateFashionVideo_done_error envVideoDoneErr assetsOne cfgPortrait "key" opStart
      opDoneErr [] "boom" rfl (by decide) rfl rfl rfl (by decide) rfl rfl).trans (by decide)

/-- C4 counterexample: the propagated error's message is the prefixed string
"Video generation failed: boom", which differs from the payload's message
"boom", refuting the claimed message equality. -/
theorem generateFashionVideo_done_error_counterexample :
    opDoneErr.error = some ⟨"boom"⟩ ∧
    (generateFashionVideo envVideoDoneErr assetsOne cfgPortrait).result =
      some (.error ⟨"Video generation failed: boom", none⟩) ∧
    ("Video generation failed: boom" : String) ≠ "boom" := by
  refine ⟨rfl, by decide, by decide⟩

/-! Claim C5 — credential-expiry normalization. -/

/-- C5 (amended): generateFashionVideo replaces errors whose message carries
a credential-expiry signal ("Requested entity was not found" or "404") by the
distinguished auth error and propagates other errors unmodified, while
generateFashionImage propagates every error unmodified — including
credential-expiry signals, which it does not normalize. -/
theorem auth_error_propagation (envV : VideoEnv) (envI : ImgEnv) (assets : UploadedAssets)
    (config : GenerationConfig) (kV kI : String) (e : JsError)
    (hkV : envV.apiKey = some kV) (hkI : envI.apiKey = some kI)
    (hne : (orderedFiles assets).isEmpty = false) :
    (envV.createResults = (fun _ => .error e) →
      ((msgContains e.message "Requested entity was not found" ||
          msgContains e.message "404") = true →
        (generateFashionVideo envV assets config).result = some (.error authExpiredError)) ∧
      ((msgContains e.message "Requested entity was not found" ||
          msgContains e.message "404") = false →
        (generateFashionVideo envV assets config).result = some (.error e))) ∧
    (envI.genResults = (fun _ => .error e) →
      (generateFashionImage envI assets config).result = .error e) := by
  constructor
  · intro hcr
    have hretry : (retryOperation envV.createResults 5 2000).1 = .error e := by
      rw [hcr]
      exact retryOperation_const_error e 5 2000 (by norm_num)
    constructor
    · intro hmark
      simp [generateFashionVideo, gfvTryResult, applyVideoCatch, normalizeAuthError, hkV, hne,
        hretry, hmark]
    · intro hmark
      simp [generateFashionVideo, gfvTryResult, applyVideoCatch, normalizeAuthError, hkV, hne,
        hretry, hmark]
  · intro hgr
    have hretry : (retryOperation envI.genResults 5 2000).1 = .error e := by
      rw [hgr]
      exact retryOperation_const_error e 5 2000 (by norm_num)
    simp [generateFashionImage, hkI, hne, hretry]

/-- C5 witness: the video path normalizes the not-found signal, passes an
unrelated error through unmodified, and the image path passes the not-found
signal through; by direct application of the theorem. -/
theorem auth_error_propagation_witness :
    (generateFashionVideo envVideoNotFound assetsOne cfgPortrait).result =
      some (.error authExpiredError) ∧
    (generateFashionVideo envVideoQuota assetsOne cfgPortrait).result =
      some (.error eQuota) ∧
    (generateFashionImage envImgNotFound assetsOne cfgPortrait).result = .error eNotFound :=
  ⟨((auth_error_propagation envVideoNotFound envImgNotFound assetsOne cfgPortrait "key" "key"
        eNotFound rfl rfl (by decide)).1 rfl).1 (by decide),
   ((auth_error_propagation envVideoQuota envImgNotFound assetsOne cfgPortrait "key" "key"
        eQuota rfl rfl (by decide)).1 rfl).2 (by decide),
   (auth_error_propagation envVideoNotFound envImgNotFound assetsOne cfgPortrait "key" "key"
        eNotFound rfl rfl (by decide)).2 rfl⟩

/-- C5 counterexample: the image entry point propagates the credential-expiry
signal unmodified instead of replacing it with the distinguished auth error,
refuting the claim for the generateFashionImage entry point. -/
theorem image_auth_error_counterexample :
    msgContains eNotFound.message "Requested entity was not found" = true ∧
    (generateFashionImage envImgNotFound assetsOne cfgPortrait).result = .error eNotFound ∧
    (.error eNotFound : Except JsError ImgHandle) ≠ .error authExpiredError := by
  refine ⟨by decide, by decide, by decide⟩

/-! Claim C7 — first inline image payload. -/

/-- C7: generateFashionImage returns the handle built from the first inline
image payload in candidate-order-then-part-order scan position, and throws
the no-image-data validation error precisely when no candidate part carries
an inline payload. -/
theorem generateFashionImage_first_inline (env : ImgEnv) (assets : UploadedAssets)
    (config : GenerationConfig) (k : String) (resp : GenContentResponse)
    (hk : env.apiKey = some k) (hne : (orderedFiles assets).isEmpty = false)
    (hgen : env.genResults 0 = .ok resp) :
    (generateFashionImage env assets config).result =
      (match (inlinePayloadsInOrder resp).head? with
       | some d => .ok ⟨d.data, d.mimeType.getD "image/png"⟩
       | none => .error noImageDataError) ∧
    ((generateFashionImage env assets config).result = .error noImageDataError ↔
      inlinePayloadsInOrder resp = []) := by
  have hretry := retryOperation_first_ok env.genResults 5 2000 (by norm_num) hgen
  have hfind := findInlineImage_eq resp
  have hres : (generateFashionImage env assets config).result =
      (match (inlinePayloadsInOrder resp).head? with
       | some d => .ok ⟨d.data, d.mimeType.getD "image/png"⟩
       | none => .error noImageDataError) := by
    simp [generateFashionImage, hk, hne, hretry, hfind]
  refine ⟨hres, ?_⟩
  rw [hres]
  cases hh : (inlinePayloadsInOrder resp).head? with
  | some d =>
    have hnil : inlinePayloadsInOrder resp ≠ [] := by
      intro hcon
      rw [hcon] at hh
      simp at hh
    simp [hnil, noImageDataError]
  | none =>
    have hnil : inlinePayloadsInOrder resp = [] := List.head?_eq_none_iff.1 hh
    simp [hnil]

/-- C7 witness: the first payload of a response with several inline images,
and the validation error for a response with none, by direct application of
the theorem. -/
theorem generateFashionImage_first_inline_witness :
    (generateFashionImage envImgOk assetsAll cfgPortrait).result =
      .ok ⟨"IMGDATA1", "image/jpeg"⟩ ∧
    ((generateFashionImage envImgEmpty assetsAll cfgPortrait).result =
        .error noImageDataError ↔
      inlinePayloadsInOrder respNoImages = []) :=
  ⟨((generateFashionImage_first_inline envImgOk assetsAll cfgPortrait "key" respWithImages
        rfl (by decide) rfl).1).trans (by decide),
   (generateFashionImage_first_inline envImgEmpty assetsAll cfgPortrait "key" respNoImages
        rfl (by decide) rfl).2⟩

end ClothingGen
